import Mathlib

/-!
# Course generator front end: conversation session, course parser, export flow

A shallow embedding of the React components under `frontend/src`
(`ChatInterface.js`, `CourseDisplay.js`, `MessageHistory.js`, `App.js`, `api.js`).

Modelling conventions.

* Component state (`useState`) is an explicit record; a state setter is a record update.
  Functional updates `setX(prev => [...prev, v])` are list appends at the end.
* An `async` handler is a function of the state it starts from and of the outcome of each
  awaited call.  The synchronous prefix up to the first `await` is a definition of its own
  (`sendMessageStart`, `handleDownloadStart`); the whole run is the prefix followed by the
  resumption.
* Every transport call is recorded in a request log, so that "no transport call is issued"
  is a statement about the log.
* `try { .. } catch { .. }` is a body returning the state together with an optional thrown
  value, followed by the handler.
* The chat response body has the field types of the backend contract
  (`success : bool`, the others optional strings); course payloads are arbitrary JSON-like
  values (`JsVal`).
* `JSON.parse` is a function of the host, not of this program: it is a parameter
  `jsonParse : String → Option JsVal`, `none` standing for the thrown `SyntaxError`.
-/

namespace CourseGen

/-! ## JavaScript values -/

/-- JSON-like JavaScript values.  Numbers are integers: the program only ever observes the
truthiness of a number. -/
inductive JsVal where
  | undefined : JsVal
  | null : JsVal
  | bool (b : Bool) : JsVal
  | num (n : Int) : JsVal
  | str (s : String) : JsVal
  | arr (items : List JsVal) : JsVal
  | obj (fields : List (String × JsVal)) : JsVal

/-- JavaScript truthiness (`ToBoolean`). -/
def JsVal.truthy : JsVal → Bool
  | .undefined => false
  | .null => false
  | .bool b => b
  | .num n => n != 0
  | .str s => s != ""
  | .arr _ => true
  | .obj _ => true

/-- Values for which `v ?? w` takes `w`. -/
def JsVal.nullish : JsVal → Bool
  | .undefined => true
  | .null => true
  | _ => false

/-- First binding of a key in a field list. -/
def lookupField (k : String) : List (String × JsVal) → JsVal
  | [] => .undefined
  | (k', v) :: rest => if k' = k then v else lookupField k rest

/-- Property read `v.k` for the property names the program reads (`raw`, `COURSE OVERVIEW`,
`MODULES`, `user`, `ai`, `isError`): none of them is an array index, `length`, or a
prototype member, so the read yields `undefined` on primitives and arrays, and on an object
that has no such field.  On `undefined` and `null` the read throws a `TypeError` (`none`). -/
def JsVal.prop (v : JsVal) (k : String) : Option JsVal :=
  match v with
  | .undefined => none
  | .null => none
  | .obj fields => some (lookupField k fields)
  | _ => some .undefined

/-- Truthiness of an optional string field (`undefined` when absent). -/
def truthyStr : Option String → Bool
  | none => false
  | some s => s != ""

/-- An optional string field as a value: `undefined` when absent. -/
def optStr : Option String → JsVal
  | none => .undefined
  | some s => .str s

/-- Template-literal conversion of an optional string field. -/
def templateStr : Option String → String
  | none => "undefined"
  | some s => s

/-! ## String helpers -/

/-- Does `xs` begin with `n`? -/
def startsWithChars : List Char → List Char → Bool
  | _, [] => true
  | [], _ :: _ => false
  | x :: xs, c :: cs => x == c && startsWithChars xs cs

/-- Does `n` occur in `xs` as a contiguous block? -/
def includesChars : List Char → List Char → Bool
  | [], n => startsWithChars [] n
  | x :: xs, n => startsWithChars (x :: xs) n || includesChars xs n

/-- `String.prototype.includes`: exact (case-sensitive) substring test. -/
def includes (s needle : String) : Bool :=
  includesChars s.data needle.data

/-- ECMAScript `WhiteSpace` and `LineTerminator` code points, the ones `trim` strips. -/
def isJsWhitespace (c : Char) : Bool :=
  let n := c.toNat
  n == 0x09 || n == 0x0A || n == 0x0B || n == 0x0C || n == 0x0D || n == 0x20 ||
  n == 0xA0 || n == 0x1680 || (0x2000 ≤ n && n ≤ 0x200A) || n == 0x2028 || n == 0x2029 ||
  n == 0x202F || n == 0x205F || n == 0x3000 || n == 0xFEFF

/-- `String.prototype.trim`. -/
def jsTrim (s : String) : String :=
  ⟨((s.data.dropWhile isJsWhitespace).reverse.dropWhile isJsWhitespace).reverse⟩

/-- ASCII lower-casing of a string, used to read "case-insensitive" in the specification. -/
def lowerAscii (s : String) : String :=
  ⟨s.data.map Char.toLower⟩

/-! ## Course content parser (`CourseDisplay.js`) -/

/-- `parseCourseContent(course)`. -/
def parseCourseContent (jsonParse : String → Option JsVal) (course : JsVal) : JsVal :=
  if !course.truthy then .null
  else
    match course with
    | .str s =>
      match jsonParse s with
      | some v => v
      | none => .obj [("raw", .str s)]
    | _ => course

/-- The specification's re-normalisation step `normalize(y.raw ?? y)`; `none` when the
property read `y.raw` throws. -/
def renormalize (jsonParse : String → Option JsVal) (y : JsVal) : Option JsVal :=
  match y.prop "raw" with
  | none => none
  | some r => some (parseCourseContent jsonParse (if r.nullish then y else r))

/-- The host decoder restricted to the three keyword documents `null`, `true`, `false`;
every other text is rejected.  It agrees with `JSON.parse` on those documents and on every
text that is not JSON, and instantiates the decoder parameter at such inputs. -/
def keywordParse (s : String) : Option JsVal :=
  if s = "null" then some .null
  else if s = "true" then some (.bool true)
  else if s = "false" then some (.bool false)
  else none

/-! ## Transport (`api.js`, axios) -/

/-- An outbound request. -/
inductive Request where
  | post (url : String) (body : JsVal) : Request
  | get (url : String) : Request

/-- Base address of the backend (`axios.create` in `api.js`, and the literal in
`ChatInterface.js`). -/
def baseURL : String := "http://localhost:5000"

/-- Body of a resolved `POST /chat`, with the field types of the backend contract; an
absent field reads as `undefined`. -/
structure ChatData where
  success : Bool
  response : Option String := none
  model_used : Option String := none
  error : Option String := none
  suggestion : Option String := none

/-- Body of a failure response, of which the handler reads `error`. -/
structure ErrData where
  error : Option String := none

/-- The `response` of an axios rejection: the HTTP status and the body, when there is
one. -/
structure ErrResponse where
  status : Nat
  data : Option ErrData := none

/-- Thrown values that the handlers can observe: an axios rejection, with the `response`
it may carry; a `TypeError` raised by a property read on `undefined`/`null`; any other
exception of the host (a failing DOM call). -/
inductive Thrown where
  | axiosError (response : Option ErrResponse) : Thrown
  | typeError : Thrown
  | other : Thrown

/-- Outcome of the awaited chat call: resolved with a body (`none`: no body at all), or
rejected, with a `response` when the server answered. -/
inductive ChatOutcome where
  | resolved (data : Option ChatData) : ChatOutcome
  | rejected (response : Option ErrResponse) : ChatOutcome

/-! ## Conversation session (`ChatInterface.js`) -/

/-- State reachable from `ChatInterface`: its four `useState` cells, the history owned by
`App` (written through the `setHistory` prop), and the log of transport calls. -/
structure Session where
  input : String := ""
  messages : List JsVal := []
  loading : Bool := false
  rateLimitInfo : Option String := none
  history : List JsVal := []
  requests : List Request := []

/-- The message object `{ user: userMessage }`. -/
def userMsg (text : String) : JsVal := .obj [("user", .str text)]

/-- The message object `{ ai: aiResponse }`. -/
def aiMsg (aiResponse : Option String) : JsVal := .obj [("ai", optStr aiResponse)]

/-- The message object `{ ai: errorMessage, isError: true }`. -/
def errorMsg (errorMessage : String) : JsVal :=
  .obj [("ai", .str errorMessage), ("isError", .bool true)]

/-- The history entry `{ user: userMessage, ai: aiResponse }`. -/
def historyItem (userMessage : String) (aiResponse : Option String) : JsVal :=
  .obj [("user", .str userMessage), ("ai", optStr aiResponse)]

/-- Fallback text of a backend-reported failure without error text. -/
def noResponseText : String := "Error: Could not get response."

/-- Text of the error turn of the `catch` block when nothing more specific applies. -/
def connectErrorText : String := "Error: Could not connect to the server."

/-- Text of the error turn for HTTP status 429. -/
def rateLimitExceededText : String :=
  "Rate limit exceeded. Please wait a moment before trying again."

/-- Notice set after a backend-reported quota or rate-limit failure. -/
def retryNotice : String := "Rate limit reached. Trying again in a few moments..."

/-- Notice set after HTTP status 429. -/
def throttledNotice : String :=
  "⏱️ Rate limit active - requests are being throttled to comply with API limits"

/-- Synchronous prefix of `sendMessage`, up to the `await`: `none` when the guard on the
trimmed input returns at once; otherwise the state with the call issued, and the captured
`userMessage`. -/
def sendMessageStart (s : Session) : Option (Session × String) :=
  if jsTrim s.input = "" then none
  else
    let userMessage := s.input
    some ({ s with
      loading := true
      rateLimitInfo := none
      messages := s.messages ++ [userMsg userMessage]
      input := ""
      requests := s.requests ++
        [.post (baseURL ++ "/chat") (.obj [("message", .str userMessage)])] }, userMessage)

/-- The `errorMessage` built in the `else` branch of the `try` block: the backend's error
text, or the fallback, followed by the suggestion when there is one. -/
def failureText (data : ChatData) : String :=
  let errorMessage :=
    if truthyStr data.error then templateStr data.error else noResponseText
  if truthyStr data.suggestion then errorMessage ++ "\n\n💡 " ++ templateStr data.suggestion
  else errorMessage

/-- The branch of the `try` block for a body with `success` falsy. -/
def sendMessageFailure (data : ChatData) (s : Session) : Session × Option Thrown :=
  let errorMessage := failureText data
  let s := { s with messages := s.messages ++ [errorMsg errorMessage] }
  match data.error with
  | none => (s, some .typeError)
  | some e =>
    if includes e "quota" || includes e "rate limit" then
      ({ s with rateLimitInfo := some retryNotice }, none)
    else (s, none)

/-- The `try` block of `sendMessage` from the resumption of the `await` on. -/
def sendMessageTry (userMessage : String) (o : ChatOutcome) (s : Session) :
    Session × Option (Thrown) :=
  match o with
  | .rejected response => (s, some (.axiosError response))
  | .resolved none => (s, some .typeError)
  | .resolved (some data) =>
    if data.success then
      let aiResponse := data.response
      let s := { s with messages := s.messages ++ [aiMsg aiResponse] }
      let s := { s with history := s.history ++ [historyItem userMessage aiResponse] }
      if truthyStr data.model_used then
        let notice := "Response generated using " ++ templateStr data.model_used
        ({ s with rateLimitInfo := some notice }, none)
      else (s, none)
    else sendMessageFailure data s

/-- The `catch` block of `sendMessage`. -/
def sendMessageCatch (err : Thrown) (s : Session) : Session :=
  let errorMessage := connectErrorText
  match err with
  | .axiosError (some response) =>
    if response.status = 429 then
      let errorMessage := rateLimitExceededText
      let s := { s with rateLimitInfo := some throttledNotice }
      { s with messages := s.messages ++ [errorMsg errorMessage] }
    else
      match response.data with
      | some d =>
        if truthyStr d.error then
          let errorMessage := templateStr d.error
          { s with messages := s.messages ++ [errorMsg errorMessage] }
        else { s with messages := s.messages ++ [errorMsg errorMessage] }
      | none => { s with messages := s.messages ++ [errorMsg errorMessage] }
  | _ => { s with messages := s.messages ++ [errorMsg errorMessage] }

/-- The rest of `sendMessage` after the `await`: `try`, `catch`, then `setLoading(false)`.
The second component is what the handler lets escape to its caller. -/
def sendMessageResume (userMessage : String) (o : ChatOutcome) (s : Session) :
    Session × Option (Thrown) :=
  let s :=
    match sendMessageTry userMessage o s with
    | (s, none) => s
    | (s, some err) => sendMessageCatch err s
  ({ s with loading := false }, none)

/-- One whole run of `sendMessage` against the outcome `o` of its chat call. -/
def sendMessage (s : Session) (o : ChatOutcome) : Session × Option (Thrown) :=
  match sendMessageStart s with
  | none => (s, none)
  | some (s, userMessage) => sendMessageResume userMessage o s

/-- The input's `onKeyDown`: `e.key === 'Enter' && !loading && sendMessage()`; the
handler starts `sendMessage` and does not await it. -/
def onKeyDown (key : String) (s : Session) : Session :=
  if key = "Enter" && !s.loading then
    match sendMessageStart s with
    | none => s
    | some (s, _) => s
  else s

/-- A click on the Send button, `disabled={loading || !input.trim()}`: a disabled button
dispatches no click. -/
def onClickSend (s : Session) : Session :=
  if s.loading || jsTrim s.input = "" then s
  else
    match sendMessageStart s with
    | none => s
    | some (s, _) => s

/-- One chat turn as the message list renders it. -/
structure ChatTurn where
  isUser : Bool
  text : JsVal
  isError : Bool

/-- How `messages.map` reads a message: class `user-msg` when `msg.user` is truthy,
`error-msg` when `msg.isError` is, and the text `msg.user || msg.ai`. -/
def turnOf (msg : JsVal) : ChatTurn :=
  let user := (msg.prop "user").getD .undefined
  let ai := (msg.prop "ai").getD .undefined
  let isError := (msg.prop "isError").getD .undefined
  { isUser := user.truthy, text := if user.truthy then user else ai, isError := isError.truthy }

/-! ## History panel and shell (`MessageHistory.js`, `App.js`) -/

/-- State of `App`: the selected course and the history. -/
structure App where
  selectedCourse : JsVal := .null
  history : List JsVal := []

/-- A click on the list item of index `idx` in `MessageHistory`: `onSelect(item)`, where
`App` passes `setSelectedCourse` as `onSelect`. -/
def onSelect (idx : Nat) (a : App) : App :=
  match a.history.get? idx with
  | some item => { a with selectedCourse := item }
  | none => a

/-! ## Course viewer (`CourseDisplay.js`) -/

/-- What the `course-content` block shows: the preformatted `raw` value, or the structured
sections that are present. -/
inductive ContentView where
  | raw (text : JsVal) : ContentView
  | sections (overview modules : Option JsVal) : ContentView

/-- The guarded read `parsed && parsed[k]`. -/
def guardedProp (parsed : JsVal) (k : String) : JsVal :=
  if parsed.truthy then (parsed.prop k).getD .undefined else parsed

/-- The `course-content` block of `CourseDisplay` for the normalized value `parsed`. -/
def courseContent (parsed : JsVal) : ContentView :=
  if (guardedProp parsed "raw").truthy then .raw (guardedProp parsed "raw")
  else
    .sections
      (if (guardedProp parsed "COURSE OVERVIEW").truthy
        then some (guardedProp parsed "COURSE OVERVIEW") else none)
      (if (guardedProp parsed "MODULES").truthy
        then some (guardedProp parsed "MODULES") else none)

/-- The content `CourseDisplay` shows for the prop `course` once expanded; `none` when the
component renders nothing. -/
def courseDisplay (jsonParse : String → Option JsVal) (course : JsVal) : Option ContentView :=
  let parsed := parseCourseContent jsonParse course
  if !course.truthy then none else some (courseContent parsed)

/-- The viewer as `App` mounts it: `selectedCourse && <CourseDisplay course={selectedCourse} />`. -/
def appCourseDisplay (jsonParse : String → Option JsVal) (a : App) : Option ContentView :=
  if a.selectedCourse.truthy then courseDisplay jsonParse a.selectedCourse else none

/-- Body of a resolved generation call. -/
structure GenData where
  file_id : Option String := none

/-- Outcome of the awaited generation call. -/
inductive GenOutcome where
  | resolved (data : Option GenData) : GenOutcome
  | rejected (response : Option ErrResponse) : GenOutcome

/-- Outcome of the awaited download call; the body is the file's bytes. -/
inductive DownloadOutcome where
  | resolved (data : List Nat) : DownloadOutcome
  | rejected (response : Option ErrResponse) : DownloadOutcome

/-- State of one `CourseDisplay`: its `useState` cells, the log of transport calls, and the
files handed to the browser (name, bytes). -/
structure Viewer where
  expanded : Bool := false
  downloading : String := ""
  error : String := ""
  requests : List Request := []
  saved : List (String × List Nat) := []

/-- Text of the export error. -/
def downloadFailedText : String := "Download failed."

/-- Endpoint chosen by the `if`/`else if` chain on `type`; `none` when no branch assigns
`res`. -/
def generatePath (type : String) : Option String :=
  if type = "ppt" then some "/generate_ppt"
  else if type = "pdf" then some "/generate_pdf"
  else if type = "lab" then some "/generate_lab_sheet"
  else none

/-- Synchronous prefix of `handleDownload(type)`, up to the first `await`. -/
def handleDownloadStart (type : String) (course : JsVal) (v : Viewer) : Viewer :=
  let v := { v with downloading := type }
  let v := { v with error := "" }
  match generatePath type with
  | some path =>
    { v with requests := v.requests ++
        [.post (baseURL ++ path) (.obj [("course_content", course)])] }
  | none => v

/-- The `try` block of `handleDownload` from the resumption of the first `await` on;
`saveOk` tells whether the DOM calls of the browser save complete. -/
def handleDownloadTry (type : String) (gen : GenOutcome) (dl : DownloadOutcome)
    (saveOk : Bool) (v : Viewer) : Viewer × Option Thrown :=
  match generatePath type with
  | none => (v, some .typeError)
  | some _ =>
    match gen with
    | .rejected response => (v, some (.axiosError response))
    | .resolved none => (v, some .typeError)
    | .resolved (some data) =>
      let fileId := data.file_id
      let v := { v with requests := v.requests ++
        [.get (baseURL ++ "/download/" ++ templateStr fileId)] }
      match dl with
      | .rejected response => (v, some (.axiosError response))
      | .resolved bytes =>
        if saveOk then ({ v with saved := v.saved ++ [(templateStr fileId, bytes)] }, none)
        else (v, some .other)

/-- The rest of `handleDownload` after the first `await`: `try`, `catch`, then
`setDownloading('')`.  The second component is what the handler lets escape. -/
def handleDownloadResume (type : String) (gen : GenOutcome) (dl : DownloadOutcome)
    (saveOk : Bool) (v : Viewer) : Viewer × Option Thrown :=
  let v :=
    match handleDownloadTry type gen dl saveOk v with
    | (v, none) => v
    | (v, some _) => { v with error := downloadFailedText }
  ({ v with downloading := "" }, none)

/-- One whole run of `handleDownload(type)` on the prop `course`. -/
def handleDownload (type : String) (course : JsVal) (gen : GenOutcome) (dl : DownloadOutcome)
    (saveOk : Bool) (v : Viewer) : Viewer × Option Thrown :=
  handleDownloadResume type gen dl saveOk (handleDownloadStart type course v)

/-- A click on the export button of kind `type`, `disabled={!!downloading}`: a disabled
button dispatches no click; an enabled one starts `handleDownload(type)`. -/
def onClickDownload (type : String) (course : JsVal) (v : Viewer) : Viewer :=
  if v.downloading != "" then v else handleDownloadStart type course v

/-! ## Specification-side vocabulary -/

/-- A normalized value that is structured and has no `raw` field: truthy, not a string, and
its `raw` property is absent, `undefined` or `null`. -/
def structuredNoRaw (y : JsVal) : Bool :=
  y.truthy &&
  (match y with
    | .str _ => false
    | _ => true) &&
  (match y.prop "raw" with
    | some r => r.nullish
    | none => false)

/-- All steps of an export went through: the generation call resolved with a body, the
download call resolved, and the browser save completed. -/
def exportSucceeded (gen : GenOutcome) (dl : DownloadOutcome) (saveOk : Bool) : Bool :=
  (match gen with
    | .resolved (some _) => true
    | _ => false) &&
  (match dl with
    | .resolved _ => true
    | .rejected _ => false) &&
  saveOk

/-! ## Helper lemmas -/

theorem startsWithChars_iff (n xs : List Char) : startsWithChars xs n = true ↔ n <+: xs := by
  induction n generalizing xs with
  | nil => simp [startsWithChars]
  | cons c cs ih =>
    cases xs with
    | nil => simp [startsWithChars]
    | cons x xs =>
      simp only [startsWithChars, Bool.and_eq_true, beq_iff_eq, ih, List.cons_prefix_cons]
      constructor
      · rintro ⟨h, h2⟩
        exact ⟨h.symm, h2⟩
      · rintro ⟨h, h2⟩
        exact ⟨h.symm, h2⟩

theorem includesChars_iff (n xs : List Char) : includesChars xs n = true ↔ n <:+: xs := by
  induction xs with
  | nil =>
    simp only [includesChars, startsWithChars_iff, List.prefix_nil, List.infix_nil]
  | cons x xs ih =>
    simp only [includesChars, Bool.or_eq_true, startsWithChars_iff, ih, List.infix_cons_iff]

/-- `includes` is the exact substring relation on the strings' characters. -/
theorem includes_iff (s needle : String) :
    includes s needle = true ↔ needle.data <:+: s.data :=
  includesChars_iff needle.data s.data

/-- A non-empty string that the decoder rejects is wrapped as `{raw: s}`. -/
theorem parseCourseContent_undecodable_aux (jsonParse : String → Option JsVal) (s : String)
    (hne : s ≠ "") (hfail : jsonParse s = none) :
    parseCourseContent jsonParse (.str s) = .obj [("raw", .str s)] := by
  simp [parseCourseContent, JsVal.truthy, hne, hfail]

theorem sendMessageStart_of_nonblank (s : Session) (h : jsTrim s.input ≠ "") :
    sendMessageStart s = some ({ s with
      loading := true
      rateLimitInfo := none
      messages := s.messages ++ [userMsg s.input]
      input := ""
      requests := s.requests ++
        [.post (baseURL ++ "/chat") (.obj [("message", .str s.input)])] }, s.input) := by
  simp [sendMessageStart, h]

theorem sendMessageStart_of_blank (s : Session) (h : jsTrim s.input = "") :
    sendMessageStart s = none := by
  simp [sendMessageStart, h]

/-! ## Conversation session: claims -/

theorem turnOf_errorMsg (t : String) :
    (turnOf (errorMsg t)).isUser = false ∧ (turnOf (errorMsg t)).isError = true := by
  simp [turnOf, errorMsg, JsVal.prop, lookupField, JsVal.truthy]

theorem turnOf_aiMsg (r : Option String) : (turnOf (aiMsg r)).isUser = false := by
  simp [turnOf, aiMsg, JsVal.prop, lookupField, JsVal.truthy]

theorem turnOf_userMsg (t : String) (h : t ≠ "") :
    (turnOf (userMsg t)).isUser = true ∧ (turnOf (userMsg t)).text = .str t := by
  simp [turnOf, userMsg, JsVal.prop, lookupField, JsVal.truthy, h]

theorem nonblank_ne_empty (t : String) (h : jsTrim t ≠ "") : t ≠ "" := by
  intro h0
  apply h
  rw [h0]
  decide

/-- The `catch` block appends exactly one error-flagged message. -/
theorem sendMessageCatch_messages (err : Thrown) (s : Session) :
    ∃ t, (sendMessageCatch err s).messages = s.messages ++ [errorMsg t] := by
  unfold sendMessageCatch
  split
  · split
    · exact ⟨_, rfl⟩
    · split
      · split
        · exact ⟨_, rfl⟩
        · exact ⟨_, rfl⟩
      · exact ⟨_, rfl⟩
  · exact ⟨_, rfl⟩

/-- The `try` block either completes having appended one message that is not a user turn,
or throws having appended none, unless the body has `success` false and no `error`. -/
theorem sendMessageTry_messages (u : String) (o : ChatOutcome) (s : Session)
    (hok : ∀ data, o = .resolved (some data) → data.success = false → data.error ≠ none) :
    ((sendMessageTry u o s).2 = none ∧
      ∃ m, (sendMessageTry u o s).1.messages = s.messages ++ [m] ∧ (turnOf m).isUser = false) ∨
    ((sendMessageTry u o s).2 ≠ none ∧ (sendMessageTry u o s).1.messages = s.messages) := by
  rcases o with (_ | data) | response
  · right
    simp [sendMessageTry]
  · left
    by_cases hs : data.success = true
    · by_cases hm : truthyStr data.model_used = true
      · refine ⟨?_, aiMsg data.response, ?_, turnOf_aiMsg _⟩ <;> simp [sendMessageTry, hs, hm]
      · refine ⟨?_, aiMsg data.response, ?_, turnOf_aiMsg _⟩ <;> simp [sendMessageTry, hs, hm]
    · have hs2 : data.success = false := by simpa using hs
      obtain ⟨e, he2⟩ := Option.ne_none_iff_exists'.mp (hok data rfl hs2)
      by_cases hq : (includes e "quota" || includes e "rate limit") = true
      · refine ⟨?_, errorMsg (failureText data), ?_, (turnOf_errorMsg _).1⟩ <;>
          simp only [sendMessageTry, hs2, sendMessageFailure, he2, hq] <;> simp
      · refine ⟨?_, errorMsg (failureText data), ?_, (turnOf_errorMsg _).1⟩ <;>
          simp only [sendMessageTry, hs2, sendMessageFailure, he2, hq] <;> simp
  · right
    simp [sendMessageTry]

/-- Outside the failing case of C1 the send appends the user turn and one further turn:
for non-blank input and every outcome other than a body with `success` false and no
`error` field, the messages grow by exactly the user message followed by one message that
does not render as a user turn. -/
theorem sendMessage_two_turns (s : Session) (o : ChatOutcome) (h : jsTrim s.input ≠ "")
    (hok : ∀ data, o = .resolved (some data) → data.success = false → data.error ≠ none) :
    ∃ m, (sendMessage s o).1.messages = s.messages ++ [userMsg s.input, m] ∧
      (turnOf m).isUser = false ∧ (turnOf (userMsg s.input)).isUser = true := by
  have hu := (turnOf_userMsg s.input (nonblank_ne_empty _ h)).1
  simp only [sendMessage, sendMessageStart_of_nonblank s h, sendMessageResume]
  generalize hs1 : ({ s with
      loading := true
      rateLimitInfo := none
      messages := s.messages ++ [userMsg s.input]
      input := ""
      requests := s.requests ++
        [.post (baseURL ++ "/chat") (.obj [("message", .str s.input)])] } : Session) = s1
  have hm1 : s1.messages = s.messages ++ [userMsg s.input] := by rw [← hs1]
  rcases sendMessageTry_messages s.input o s1 hok with ⟨h2, m, hm, hnu⟩ | ⟨h2, hm⟩
  · rcases hT : sendMessageTry s.input o s1 with ⟨s2, thrown⟩
    rw [hT] at h2 hm
    simp only at h2 hm
    subst h2
    exact ⟨m, by simp [hm, hm1], hnu, hu⟩
  · rcases hT : sendMessageTry s.input o s1 with ⟨s2, thrown⟩
    rw [hT] at h2 hm
    simp only at h2 hm
    obtain ⟨err, rfl⟩ := Option.ne_none_iff_exists'.mp h2
    obtain ⟨t, ht⟩ := sendMessageCatch_messages err s2
    exact ⟨errorMsg t, by simp [ht, hm, hm1], (turnOf_errorMsg t).1, hu⟩

/-- The failing case of C1 in general: for non-blank input and any body with `success`
false and no `error` field, the run appends three messages, the last two both
error-flagged. -/
theorem sendMessage_missing_error_general (s : Session) (data : ChatData)
    (h : jsTrim s.input ≠ "") (hs : data.success = false) (he : data.error = none) :
    (sendMessage s (.resolved (some data))).1.messages =
      s.messages ++
        [userMsg s.input, errorMsg (failureText data), errorMsg connectErrorText] := by
  simp [sendMessage, sendMessageStart_of_nonblank s h, sendMessageResume, sendMessageTry, hs,
    sendMessageFailure, he, sendMessageCatch]

/-- C1, at the failing input: for the input "X" and the backend body `{success: false}`
(no `error` field), one run of `sendMessage` appends three turns and not two: the user turn,
the error turn built in the `else` branch, and a second error turn built by the `catch`
block, reached because `res.data.error.includes` throws on the missing field. -/
theorem sendMessage_missing_error_three_turns :
    (sendMessage { input := "X" } (.resolved (some { success := false }))).1.messages =
      [userMsg "X", errorMsg noResponseText, errorMsg connectErrorText] ∧
    (turnOf (errorMsg noResponseText)).isError = true ∧
    (turnOf (errorMsg connectErrorText)).isError = true := by
  refine ⟨?_, ?_, ?_⟩
  · rw [sendMessage, sendMessageStart_of_nonblank _ (by decide)]
    simp [sendMessageResume, sendMessageTry, sendMessageFailure, sendMessageCatch, failureText,
      truthyStr]
  · simp [turnOf, errorMsg, JsVal.prop, lookupField, JsVal.truthy]
  · simp [turnOf, errorMsg, JsVal.prop, lookupField, JsVal.truthy]

/-- C2, counterexample: the backend body `{success: false, error: "Rate limit exceeded",
suggestion: "Try again in 60s"}` has an error text that contains "rate limit" once
lower-cased, yet the notice is `null` after the send: `includes` compares case-sensitively
and "Rate limit" does not contain "rate limit". -/
theorem sendMessage_capitalised_rate_limit_no_notice :
    includes (lowerAscii "Rate limit exceeded") "rate limit" = true ∧
    includes "Rate limit exceeded" "rate limit" = false ∧
    (sendMessage { input := "X" } (.resolved (some
      { success := false, error := some "Rate limit exceeded",
        suggestion := some "Try again in 60s" }))).1.rateLimitInfo = none := by
  refine ⟨by decide, by decide, ?_⟩
  have h1 : includes "Rate limit exceeded" "quota" = false := by decide
  have h2 : includes "Rate limit exceeded" "rate limit" = false := by decide
  rw [sendMessage, sendMessageStart_of_nonblank _ (by decide)]
  simp [sendMessageResume, sendMessageTry, sendMessageFailure, h1, h2]

/-- C2, amended: for non-blank input and every backend-reported failure (`success` false)
whose error text contains "quota" or "rate limit" as an exact, case-sensitive substring,
`sendMessage` leaves the notice set to the retry advisory. -/
theorem sendMessage_failure_notice_case_sensitive (s : Session) (data : ChatData) (e : String)
    (h : jsTrim s.input ≠ "") (hs : data.success = false) (he : data.error = some e)
    (hsub : "quota".data <:+: e.data ∨ "rate limit".data <:+: e.data) :
    (sendMessage s (.resolved (some data))).1.rateLimitInfo = some retryNotice := by
  have hq : (includes e "quota" || includes e "rate limit") = true := by
    rw [Bool.or_eq_true, includes_iff, includes_iff]
    exact hsub
  simp only [sendMessage, sendMessageStart_of_nonblank s h, sendMessageResume, sendMessageTry,
    hs, sendMessageFailure, he, hq]
  simp

/-- Witness for `sendMessage_failure_notice_case_sensitive`: input "X" and the body
`{success: false, error: "API quota exceeded"}`. -/
theorem sendMessage_failure_notice_case_sensitive_witness :
    (sendMessage { input := "X" } (.resolved (some
      { success := false, error := some "API quota exceeded" }))).1.rateLimitInfo =
      some retryNotice :=
  sendMessage_failure_notice_case_sensitive { input := "X" }
    { success := false, error := some "API quota exceeded" } "API quota exceeded"
    (by decide) rfl rfl (Or.inl ((includes_iff _ _).mp (by decide)))

/-- C4, counterexample: in a state with a send pending (`loading` true, the first user
turn shown, its call logged) and a non-blank input, a second call of `sendMessage` runs its
synchronous prefix again: it appends a second user turn and issues a second chat call. -/
theorem sendMessage_while_loading_sends_again :
    (sendMessageStart
      { input := "again", loading := true, messages := [userMsg "first"],
        requests := [.post (baseURL ++ "/chat") (.obj [("message", .str "first")])] }).map
      (fun r => (r.1.messages, r.1.requests)) =
    some ([userMsg "first", userMsg "again"],
      [.post (baseURL ++ "/chat") (.obj [("message", .str "first")]),
       .post (baseURL ++ "/chat") (.obj [("message", .str "again")])]) := by
  rw [sendMessageStart_of_nonblank _ (by decide)]
  rfl

/-- C4, amended: while `loading` is true the user interface starts no second send.  The
Enter-key handler tests `!loading` and the Send button is disabled, so neither a key press
nor a click changes the session: no chat turn is appended and no transport call issued. -/
theorem pending_blocks_send_triggers (s : Session) (key : String) (h : s.loading = true) :
    onKeyDown key s = s ∧ onClickSend s = s ∧
    (onKeyDown key s).messages = s.messages ∧ (onKeyDown key s).requests = s.requests ∧
    (onClickSend s).messages = s.messages ∧ (onClickSend s).requests = s.requests := by
  have h1 : onKeyDown key s = s := by simp [onKeyDown, h]
  have h2 : onClickSend s = s := by simp [onClickSend, h]
  rw [h1, h2]
  exact ⟨rfl, rfl, rfl, rfl, rfl, rfl⟩

/-- Witness for `pending_blocks_send_triggers`: the Enter key in a pending session whose
input is non-blank. -/
theorem pending_blocks_send_triggers_witness :
    onKeyDown "Enter" { input := "again", loading := true, messages := [userMsg "first"] } =
      { input := "again", loading := true, messages := [userMsg "first"] } :=
  (pending_blocks_send_triggers
    { input := "again", loading := true, messages := [userMsg "first"] } "Enter" rfl).1

/-- C9: on every transport failure of the chat call (non-blank input), `sendMessage` lets
nothing escape, resets `loading`, and appends after the user turn exactly one error-flagged
turn.  Its text is the fixed rate-limit message when the failure carries status 429, and
then the notice is the throttling advisory; otherwise the notice is `null` and the text is
the backend's error string when the failure response carries a non-empty one, else the
"could not connect" message. -/
theorem sendMessage_transport_failure (s : Session) (response : Option ErrResponse)
    (h : jsTrim s.input ≠ "") :
    (sendMessage s (.rejected response)).2 = none ∧
    (sendMessage s (.rejected response)).1.loading = false ∧
    ∃ text, (sendMessage s (.rejected response)).1.messages =
        s.messages ++ [userMsg s.input, errorMsg text] ∧
      (turnOf (errorMsg text)).isError = true ∧
      ((∃ r, response = some r ∧ r.status = 429) →
        text = rateLimitExceededText ∧
        (sendMessage s (.rejected response)).1.rateLimitInfo = some throttledNotice) ∧
      (∀ r d e, response = some r → r.status ≠ 429 → r.data = some d → d.error = some e →
        e ≠ "" →
        text = e ∧ (sendMessage s (.rejected response)).1.rateLimitInfo = none) ∧
      ((response = none ∨ ∃ r, response = some r ∧ r.status ≠ 429 ∧
          (r.data = none ∨ ∃ d, r.data = some d ∧ (d.error = none ∨ d.error = some ""))) →
        text = connectErrorText ∧
        (sendMessage s (.rejected response)).1.rateLimitInfo = none) := by
  simp only [sendMessage, sendMessageStart_of_nonblank s h, sendMessageResume, sendMessageTry]
  refine ⟨trivial, trivial, ?_⟩
  rcases response with _ | r
  · refine ⟨connectErrorText, by simp [sendMessageCatch], (turnOf_errorMsg _).2, ?_, ?_, ?_⟩
    · rintro ⟨r, hr, -⟩
      cases hr
    · intro r d e hr
      cases hr
    · intro _
      exact ⟨rfl, rfl⟩
  · by_cases h429 : r.status = 429
    · refine ⟨rateLimitExceededText, by simp [sendMessageCatch, h429], (turnOf_errorMsg _).2,
        ?_, ?_, ?_⟩
      · intro _
        exact ⟨rfl, by simp [sendMessageCatch, h429]⟩
      · intro r2 d e hr hne
        cases hr
        exact absurd h429 hne
      · rintro (hr | ⟨r2, hr, hne, -⟩)
        · cases hr
        · cases hr
          exact absurd h429 hne
    · rcases hd : r.data with _ | d
      · refine ⟨connectErrorText, by simp [sendMessageCatch, h429, hd], (turnOf_errorMsg _).2,
          ?_, ?_, ?_⟩
        · rintro ⟨r2, hr, h2⟩
          cases hr
          exact absurd h2 h429
        · intro r2 d e hr _ hd2
          cases hr
          rw [hd] at hd2
          cases hd2
        · intro _
          exact ⟨rfl, by simp [sendMessageCatch, h429, hd]⟩
      · rcases he : d.error with _ | e
        · refine ⟨connectErrorText,
            by simp [sendMessageCatch, h429, hd, he, truthyStr], (turnOf_errorMsg _).2,
            ?_, ?_, ?_⟩
          · rintro ⟨r2, hr, h2⟩
            cases hr
            exact absurd h2 h429
          · intro r2 d2 e2 hr _ hd2 he2
            cases hr
            rw [hd] at hd2
            cases hd2
            rw [he] at he2
            cases he2
          · intro _
            exact ⟨rfl, by simp [sendMessageCatch, h429, hd, he, truthyStr]⟩
        · by_cases hee : e = ""
          · subst hee
            refine ⟨connectErrorText,
              by simp [sendMessageCatch, h429, hd, he, truthyStr], (turnOf_errorMsg _).2,
              ?_, ?_, ?_⟩
            · rintro ⟨r2, hr, h2⟩
              cases hr
              exact absurd h2 h429
            · intro r2 d2 e2 hr _ hd2 he2 hne
              cases hr
              rw [hd] at hd2
              cases hd2
              rw [he] at he2
              cases he2
              exact absurd rfl hne
            · intro _
              exact ⟨rfl, by simp [sendMessageCatch, h429, hd, he, truthyStr]⟩
          · refine ⟨e,
              by simp [sendMessageCatch, h429, hd, he, truthyStr, hee, templateStr],
              (turnOf_errorMsg _).2, ?_, ?_, ?_⟩
            · rintro ⟨r2, hr, h2⟩
              cases hr
              exact absurd h2 h429
            · intro r2 d2 e2 hr _ hd2 he2 _
              cases hr
              rw [hd] at hd2
              cases hd2
              rw [he] at he2
              cases he2
              exact ⟨rfl, by simp [sendMessageCatch, h429, hd, he, truthyStr, hee]⟩
            · rintro (hr | ⟨r2, hr, -, h3 | ⟨d2, hd2, h4 | h4⟩⟩)
              · cases hr
              · cases hr
                rw [hd] at h3
                cases h3
              · cases hr
                rw [hd] at hd2
                cases hd2
                rw [he] at h4
                cases h4
              · cases hr
                rw [hd] at hd2
                cases hd2
                rw [he] at h4
                cases h4
                exact absurd rfl hee

/-- Witness for `sendMessage_transport_failure`: input "X" and a rejection with status
429. -/
theorem sendMessage_transport_failure_witness :
    (sendMessage { input := "X" } (.rejected (some { status := 429 }))).2 = none :=
  (sendMessage_transport_failure { input := "X" } (some { status := 429 }) (by decide)).1

/-- The `catch` block does not touch the history. -/
theorem sendMessageCatch_history (err : Thrown) (s : Session) :
    (sendMessageCatch err s).history = s.history := by
  unfold sendMessageCatch
  split
  · split
    · rfl
    · split
      · split <;> rfl
      · rfl
  · rfl

/-- C10: history is append-only across `sendMessage`.  A send of non-blank text that the
backend answers with `success` true appends exactly one entry, made of the submitted text
and the response, after all earlier entries; a send that ends in a backend-reported failure,
in a body-less answer or in a transport failure, and a send of blank text, leave the history
as it was. -/
theorem sendMessage_history (s : Session) (o : ChatOutcome) :
    (∀ data, jsTrim s.input ≠ "" → o = .resolved (some data) → data.success = true →
      (sendMessage s o).1.history = s.history ++ [historyItem s.input data.response]) ∧
    ((jsTrim s.input = "" ∨ (∃ r, o = .rejected r) ∨ o = .resolved none ∨
        ∃ data, o = .resolved (some data) ∧ data.success = false) →
      (sendMessage s o).1.history = s.history) := by
  constructor
  · intro data h ho hs
    subst ho
    simp only [sendMessage, sendMessageStart_of_nonblank s h, sendMessageResume, sendMessageTry,
      hs, if_true]
    by_cases hm : truthyStr data.model_used = true
    · simp only [hm, if_true]
    · simp only [hm]
      rfl
  · intro hcase
    by_cases h : jsTrim s.input = ""
    · simp only [sendMessage, sendMessageStart_of_blank s h]
    · have hcase2 : (∃ r, o = .rejected r) ∨ o = .resolved none ∨
          ∃ data, o = .resolved (some data) ∧ data.success = false := by
        rcases hcase with h0 | h1
        · exact absurd h0 h
        · exact h1
      simp only [sendMessage, sendMessageStart_of_nonblank s h, sendMessageResume]
      rcases hcase2 with ⟨r, rfl⟩ | rfl | ⟨data, rfl, hs⟩
      · simp only [sendMessageTry, sendMessageCatch_history]
      · simp only [sendMessageTry, sendMessageCatch_history]
      · rcases he : data.error with _ | e
        · simp [sendMessageTry, hs, sendMessageFailure, he, sendMessageCatch_history]
        · by_cases hq : (includes e "quota" || includes e "rate limit") = true
          · simp only [sendMessageTry, hs, sendMessageFailure, he, hq, Bool.false_eq_true,
              if_false, if_true]
          · simp only [sendMessageTry, hs, sendMessageFailure, he, hq, Bool.false_eq_true,
              if_false]

/-- Witness for `sendMessage_history`: after two earlier entries, the input
"Python programming" answered with `{success: true, response: "course"}` adds the third
entry at the end. -/
theorem sendMessage_history_witness :
    (sendMessage
      { input := "Python programming",
        history := [historyItem "a" (some "b"), historyItem "c" none] }
      (.resolved (some { success := true, response := some "course" }))).1.history =
    [historyItem "a" (some "b"), historyItem "c" none,
      historyItem "Python programming" (some "course")] :=
  (sendMessage_history
    { input := "Python programming",
      history := [historyItem "a" (some "b"), historyItem "c" none] }
    (.resolved (some { success := true, response := some "course" }))).1
    { success := true, response := some "course" } (by decide) rfl rfl

/-! ## Course parser and viewer: claims -/

/-- C3, at the failing input: the history holds the one entry produced by sending
"Python" and receiving the non-JSON response "not json".  Selecting it stores the whole
entry object `{user, ai}` as the selected course; `parseCourseContent` passes an object
through, so the normalized value is that entry and not `{raw: "not json"}`, its `raw`
property is `undefined`, and the viewer takes the structured branch with no section to show.
Given the response string itself, the viewer does show it as preformatted raw text. -/
theorem select_raw_entry_not_shown_raw :
    (sendMessage { input := "Python" }
      (.resolved (some { success := true, response := some "not json" }))).1.history =
      [historyItem "Python" (some "not json")] ∧
    (onSelect 0 { history := [historyItem "Python" (some "not json")] }).selectedCourse =
      historyItem "Python" (some "not json") ∧
    (∀ jsonParse : String → Option JsVal,
      parseCourseContent jsonParse (historyItem "Python" (some "not json")) =
        historyItem "Python" (some "not json") ∧
      appCourseDisplay jsonParse (onSelect 0 { history := [historyItem "Python" (some "not json")] })
        = some (.sections none none)) ∧
    historyItem "Python" (some "not json") ≠ .obj [("raw", .str "not json")] ∧
    courseDisplay keywordParse (.str "not json") = some (.raw (.str "not json")) := by
  refine ⟨?_, rfl, ?_, ?_, ?_⟩
  · rw [sendMessage, sendMessageStart_of_nonblank _ (by decide)]
    simp [sendMessageResume, sendMessageTry, truthyStr]
  · intro jsonParse
    constructor
    · simp [parseCourseContent, historyItem, JsVal.truthy]
    · simp [appCourseDisplay, onSelect, courseDisplay, courseContent, guardedProp,
        parseCourseContent, historyItem, JsVal.truthy, JsVal.prop, lookupField, optStr]
  · simp [historyItem]
  · simp [courseDisplay, courseContent, guardedProp, parseCourseContent, keywordParse,
      JsVal.truthy, JsVal.prop, lookupField]

/-- C5, counterexample: for the empty string, which no decoder is even asked about, the
guard `!course` returns `null`, not `{raw: ""}`. -/
theorem parseCourseContent_empty_string_null :
    (∀ jsonParse : String → Option JsVal, parseCourseContent jsonParse (.str "") = .null) ∧
    JsVal.null ≠ .obj [("raw", .str "")] ∧ keywordParse "" = none := by
  refine ⟨?_, ?_, by simp [keywordParse]⟩
  · intro jsonParse
    simp [parseCourseContent, JsVal.truthy]
  · simp

/-- C5, amended: for every non-empty string `s` that cannot be decoded as JSON,
`parseCourseContent` returns exactly `{raw: s}` with `s` unchanged. -/
theorem parseCourseContent_undecodable (jsonParse : String → Option JsVal) (s : String)
    (hne : s ≠ "") (hfail : jsonParse s = none) :
    parseCourseContent jsonParse (.str s) = .obj [("raw", .str s)] :=
  parseCourseContent_undecodable_aux jsonParse s hne hfail

/-- Witness for `parseCourseContent_undecodable`: the text `not json`. -/
theorem parseCourseContent_undecodable_witness :
    parseCourseContent keywordParse (.str "not json") = .obj [("raw", .str "not json")] :=
  parseCourseContent_undecodable keywordParse "not json" (by decide) (by simp [keywordParse])

/-- C6, counterexample: for the payload `{raw: 5}` the normalized value is the payload
itself, and re-normalizing after unwrapping `raw` gives `5`, a different value; for the
payload `null` the normalized value is `null` and the read of its `raw` property throws. -/
theorem renormalize_not_stable :
    (∀ jsonParse : String → Option JsVal,
      parseCourseContent jsonParse (.obj [("raw", .num 5)]) = .obj [("raw", .num 5)] ∧
      renormalize jsonParse (parseCourseContent jsonParse (.obj [("raw", .num 5)])) =
        some (.num 5) ∧
      renormalize jsonParse (parseCourseContent jsonParse .null) = none) ∧
    JsVal.num 5 ≠ .obj [("raw", .num 5)] := by
  refine ⟨?_, by simp⟩
  intro jsonParse
  simp [parseCourseContent, renormalize, JsVal.truthy, JsVal.prop, lookupField, JsVal.nullish]

/-- A structured value without `raw` field is a fixed point of the re-normalisation. -/
theorem renormalize_structured (jsonParse : String → Option JsVal) (y : JsVal)
    (h : structuredNoRaw y = true) : renormalize jsonParse y = some y := by
  cases y with
  | undefined => simp [structuredNoRaw, JsVal.truthy] at h
  | null => simp [structuredNoRaw, JsVal.truthy] at h
  | str s => simp [structuredNoRaw] at h
  | bool b =>
    simp [structuredNoRaw, JsVal.truthy] at h
    simp [renormalize, JsVal.prop, JsVal.nullish, parseCourseContent, JsVal.truthy, h]
  | num n =>
    simp [structuredNoRaw, JsVal.truthy, JsVal.prop, JsVal.nullish] at h
    simp [renormalize, JsVal.prop, JsVal.nullish, parseCourseContent, JsVal.truthy, h]
  | arr items =>
    simp [renormalize, JsVal.prop, JsVal.nullish, parseCourseContent, JsVal.truthy]
  | obj fields =>
    simp only [structuredNoRaw, JsVal.truthy, JsVal.prop, Bool.and_eq_true, true_and] at h
    simp [renormalize, JsVal.prop, h, parseCourseContent, JsVal.truthy]

/-- C6, amended: let `y` be the normalized value of a payload `x`.  When `y` is structured
(truthy, not a string) with no `raw` field (absent, `undefined` or `null`), or when `x` is a
non-empty string that cannot be decoded, so that `y` is `{raw: x}`, re-normalizing after
unwrapping `raw` gives `y` again, and so does applying the step a second time. -/
theorem renormalize_stable (jsonParse : String → Option JsVal) (x : JsVal)
    (h : structuredNoRaw (parseCourseContent jsonParse x) = true ∨
      ∃ s, x = .str s ∧ s ≠ "" ∧ jsonParse s = none) :
    renormalize jsonParse (parseCourseContent jsonParse x) =
      some (parseCourseContent jsonParse x) ∧
    (renormalize jsonParse (parseCourseContent jsonParse x)).bind (renormalize jsonParse) =
      some (parseCourseContent jsonParse x) := by
  have key : renormalize jsonParse (parseCourseContent jsonParse x) =
      some (parseCourseContent jsonParse x) := by
    rcases h with h | ⟨s, rfl, hne, hfail⟩
    · exact renormalize_structured jsonParse _ h
    · rw [parseCourseContent_undecodable_aux jsonParse s hne hfail]
      simp [renormalize, JsVal.prop, lookupField, JsVal.nullish,
        parseCourseContent_undecodable_aux jsonParse s hne hfail]
  rw [key]
  exact ⟨rfl, key⟩

/-- Witness for `renormalize_stable`: the undecodable text `not json`, normalized to
`{raw: "not json"}`. -/
theorem renormalize_stable_witness :
    renormalize keywordParse (parseCourseContent keywordParse (.str "not json")) =
      some (parseCourseContent keywordParse (.str "not json")) :=
  (renormalize_stable keywordParse (.str "not json")
    (Or.inr ⟨"not json", rfl, by decide, by simp [keywordParse]⟩)).1

/-! ## Export flow: claims -/

/-- C7, counterexample: with a PowerPoint export in flight (`downloading = 'ppt'`, its
generation call logged), a call of `handleDownload('pdf')` is not rejected: its synchronous
prefix overwrites `downloading` with `'pdf'` and issues a second generation call. -/
theorem handleDownload_while_downloading_starts_again :
    (handleDownloadStart "pdf" (.str "course")
      { downloading := "ppt",
        requests := [.post (baseURL ++ "/generate_ppt")
          (.obj [("course_content", .str "course")])] }).downloading = "pdf" ∧
    (handleDownloadStart "pdf" (.str "course")
      { downloading := "ppt",
        requests := [.post (baseURL ++ "/generate_ppt")
          (.obj [("course_content", .str "course")])] }).requests =
      [.post (baseURL ++ "/generate_ppt") (.obj [("course_content", .str "course")]),
       .post (baseURL ++ "/generate_pdf") (.obj [("course_content", .str "course")])] := by
  constructor
  · rfl
  · simp [handleDownloadStart, generatePath]

/-- C7, amended: while an export is in flight (`downloading` non-empty) the three export
buttons are disabled, so a click on any of them starts nothing: the viewer's state is
unchanged, its export state included, and no generation or download call is issued. -/
theorem in_flight_blocks_export_buttons (type : String) (course : JsVal) (v : Viewer)
    (h : v.downloading ≠ "") :
    onClickDownload type course v = v ∧
    (onClickDownload type course v).requests = v.requests ∧
    (onClickDownload type course v).downloading = v.downloading ∧
    (onClickDownload type course v).error = v.error := by
  have h1 : onClickDownload type course v = v := by simp [onClickDownload, h]
  rw [h1]
  exact ⟨rfl, rfl, rfl, rfl⟩

/-- Witness for `in_flight_blocks_export_buttons`: a click on the PDF button while a
PowerPoint export is in flight. -/
theorem in_flight_blocks_export_buttons_witness :
    onClickDownload "pdf" (.str "course") { downloading := "ppt" } = { downloading := "ppt" } :=
  (in_flight_blocks_export_buttons "pdf" (.str "course") { downloading := "ppt" }
    (by decide)).1

/-- C8: for each of the three kinds and every outcome of the generation call, the download
call and the browser save, `handleDownload` lets nothing escape and ends with `downloading`
reset to the empty string; the error is empty when every step succeeded and is the one
fixed message "Download failed." when any step failed, whichever it was. -/
theorem handleDownload_resets_and_reports (type : String) (course : JsVal) (gen : GenOutcome)
    (dl : DownloadOutcome) (saveOk : Bool) (v : Viewer)
    (hk : type = "ppt" ∨ type = "pdf" ∨ type = "lab") :
    (handleDownload type course gen dl saveOk v).2 = none ∧
    (handleDownload type course gen dl saveOk v).1.downloading = "" ∧
    (exportSucceeded gen dl saveOk = true →
      (handleDownload type course gen dl saveOk v).1.error = "") ∧
    (exportSucceeded gen dl saveOk = false →
      (handleDownload type course gen dl saveOk v).1.error = "Download failed.") := by
  have hp : ∃ path, generatePath type = some path := by
    rcases hk with rfl | rfl | rfl
    · exact ⟨_, rfl⟩
    · exact ⟨_, rfl⟩
    · exact ⟨_, rfl⟩
  obtain ⟨path, hp⟩ := hp
  refine ⟨rfl, rfl, ?_, ?_⟩
  · intro hok
    rcases gen with (_ | data) | r
    · simp [exportSucceeded] at hok
    · rcases dl with bytes | r
      · have hs : saveOk = true := by simpa [exportSucceeded] using hok
        simp [handleDownload, handleDownloadResume, handleDownloadTry, handleDownloadStart, hp,
          hs]
      · simp [exportSucceeded] at hok
    · simp [exportSucceeded] at hok
  · intro hbad
    rcases gen with (_ | data) | r
    · simp [handleDownload, handleDownloadResume, handleDownloadTry, handleDownloadStart, hp,
        downloadFailedText]
    · rcases dl with bytes | r
      · have hs : saveOk = false := by simpa [exportSucceeded] using hbad
        simp [handleDownload, handleDownloadResume, handleDownloadTry, handleDownloadStart, hp,
          hs, downloadFailedText]
      · simp [handleDownload, handleDownloadResume, handleDownloadTry, handleDownloadStart, hp,
          downloadFailedText]
    · simp [handleDownload, handleDownloadResume, handleDownloadTry, handleDownloadStart, hp,
        downloadFailedText]

/-- Witness for `handleDownload_resets_and_reports`: a PDF export whose generation call
resolves with file id `f1` and whose download is rejected with status 404, started from a
viewer that still shows an earlier error. -/
theorem handleDownload_resets_and_reports_witness :
    (handleDownload "pdf" (.str "course") (.resolved (some { file_id := some "f1" }))
      (.rejected (some { status := 404 })) true { error := "old" }).1.error =
      "Download failed." :=
  (handleDownload_resets_and_reports "pdf" (.str "course")
    (.resolved (some { file_id := some "f1" })) (.rejected (some { status := 404 })) true
    { error := "old" } (Or.inr (Or.inl rfl))).2.2.2 rfl

end CourseGen
